import Mathlib

/-!
Verification of the asus-numpad tap state machine (src/main.rs).

The Rust core is shallowly embedded below: `TimeVal.elapsed_since` mirrors
the `ElapsedSince` impl (with the `as u32` casts made explicit as
reductions modulo 2^32), `TouchpadState` mirrors the mutable state struct,
`toggle_numlock` mirrors `Numpad::toggle_numlock` (returning the emitted
side-effect commands), and `processEvent` mirrors one iteration of the
`Numpad::process` event loop.  The external collaborators (layout oracle,
key emitter, illumination controller, exclusivity control) are modelled as
an abstract `NumpadLayout` record and an emitted `Cmd` list.
-/

structure TimeVal where
  tv_sec : Int
  tv_usec : Int
deriving DecidableEq

def USEC_PER_SEC : Int := 1000000

/-- Reduction modulo 2^32, the effect of Rust's `as u32` cast on an
integer value (kept explicit; the claims' hypotheses keep values in
range, where the cast is the identity). -/
def u32cast (i : Int) : Int := i % 4294967296

/-- Embedding of `ElapsedSince for TimeVal` from src/main.rs. -/
def TimeVal.elapsed_since (self other : TimeVal) : TimeVal :=
  if other.tv_usec ≤ self.tv_usec then
    { tv_sec := self.tv_sec - other.tv_sec,
      tv_usec := u32cast (self.tv_usec - other.tv_usec) }
  else
    { tv_sec := self.tv_sec - other.tv_sec - 1,
      tv_usec := u32cast (u32cast self.tv_usec + USEC_PER_SEC - u32cast other.tv_usec) }

/-- The derived lexicographic `>=` on evdev TimeVal (fields compared in
declaration order), used by `ev.time.elapsed_since(..) >= HOLD_DURATION`. -/
def TimeVal.tvGe (a b : TimeVal) : Bool :=
  decide (b.tv_sec < a.tv_sec ∨ (b.tv_sec = a.tv_sec ∧ b.tv_usec ≤ a.tv_usec))

inductive Brightness
  | Zero
  | Low
  | Half
  | Full
deriving DecidableEq

/-- The numeric discriminants of the Rust `Brightness` enum. -/
def Brightness.val : Brightness → Nat
  | .Zero => 0
  | .Low => 31
  | .Half => 24
  | .Full => 1

inductive FingerState
  | Lifted
  | Touching
  | Tapping
deriving DecidableEq

/-- Key codes (the program's `EV_KEY` values), abstracted as naturals. -/
abbrev Key := Nat

/-- Commands issued to the downstream collaborators (key emitter,
illumination controller over i2c, evdev grab). -/
inductive Cmd
  | keydown (k : Key)
  | keyup (k : Key)
  | multi_keydown (ks : List Key)
  | multi_keyup (ks : List Key)
  | setBrightness (b : Brightness)
  | grab
  | ungrab
deriving DecidableEq

/-- The layout oracle interface (external collaborator): pure queries used
by `Numpad::process`. -/
structure NumpadLayout where
  get_key : Int → Int → Option Key
  in_numpad_bbox : Int → Int → Bool
  needs_multikey : Key → Bool
  multikeys : Key → List Key

/-- Embedding of the Rust `TouchpadState` struct.  Coordinates are kept as
integers: the program stores raw evdev sample values (integers cast to
f32, losslessly in the device range) and performs no arithmetic on them. -/
structure TouchpadState where
  posx : Int
  posy : Int
  finger_state : FingerState
  numlock : Bool
  cur_key : Option Key
  tap_started_at : TimeVal
  tapped_outside_numlock_bbox : Bool
  brightness : Brightness
deriving DecidableEq

/-- Embedding of `impl Default for TouchpadState`. -/
def TouchpadState.default : TouchpadState :=
  { posx := 0, posy := 0, finger_state := FingerState.Lifted, numlock := false,
    cur_key := none, tap_started_at := ⟨0, 0⟩,
    tapped_outside_numlock_bbox := false, brightness := Brightness.Half }

/-- Embedding of `Numpad::toggle_numlock`: flips the flag via
`TouchpadState::toggle_numlock` and issues brightness and grab commands
according to the new value. -/
def toggle_numlock (st : TouchpadState) : TouchpadState × List Cmd :=
  let st2 := { st with numlock := !st.numlock }
  if st2.numlock then
    (st2, [Cmd.setBrightness st2.brightness, Cmd.grab])
  else
    (st2, [Cmd.setBrightness Brightness.Zero, Cmd.ungrab])

/-- Input events of the `process` loop: `ABS_MT_POSITION_X`,
`ABS_MT_POSITION_Y`, `BTN_TOOL_FINGER` (with its integer value),
`MSC_TIMESTAMP`, and every other event code (the wildcard arm). -/
inductive Event
  | posX (v : Int) (t : TimeVal)
  | posY (v : Int) (t : TimeVal)
  | finger (v : Int) (t : TimeVal)
  | tick (t : TimeVal)
  | other
deriving DecidableEq

def HOLD_DURATION : TimeVal := ⟨0, 750000⟩

/-- The key-down command for `key`, multi or single according to the
layout's classification (mirrors the emission sites in `process`). -/
def keyDownCmd (L : NumpadLayout) (k : Key) : Cmd :=
  if L.needs_multikey k then Cmd.multi_keydown (L.multikeys k) else Cmd.keydown k

/-- The key-up command for `key`, multi or single according to the
layout's classification. -/
def keyUpCmd (L : NumpadLayout) (k : Key) : Cmd :=
  if L.needs_multikey k then Cmd.multi_keyup (L.multikeys k) else Cmd.keyup k

/-- Embedding of the `EV_KEY(BTN_TOOL_FINGER)` match arm of
`Numpad::process`.  Note: in the source the bounding-box check sits inside
`ev.value == 1` but outside the `finger_state == Lifted` block. -/
def handleFinger (L : NumpadLayout) (st : TouchpadState) (v : Int) (t : TimeVal) :
    TouchpadState × List Cmd :=
  if v = 0 then
    match st.cur_key with
    | some key =>
        ({ st with finger_state := FingerState.Lifted, cur_key := none },
         [keyUpCmd L key])
    | none => ({ st with finger_state := FingerState.Lifted }, [])
  else if v = 1 then
    let st1 :=
      if st.finger_state = FingerState.Lifted then
        { st with finger_state := FingerState.Touching, tap_started_at := t,
                  tapped_outside_numlock_bbox := false }
      else st
    if L.in_numpad_bbox st1.posx st1.posy then
      ({ st1 with finger_state := FingerState.Tapping }, [])
    else
      ({ st1 with tapped_outside_numlock_bbox := true }, [])
  else (st, [])

/-- Embedding of the `EV_MSC(MSC_TIMESTAMP)` match arm of
`Numpad::process`.  The guard checks only the finger state and the
suppression flag; there is no numlock condition. -/
def handleTick (L : NumpadLayout) (st : TouchpadState) (t : TimeVal) :
    TouchpadState × List Cmd :=
  if st.finger_state = FingerState.Tapping ∧ st.tapped_outside_numlock_bbox = false then
    if L.in_numpad_bbox st.posx st.posy then
      if TimeVal.tvGe (t.elapsed_since st.tap_started_at) HOLD_DURATION then
        let p := toggle_numlock st
        ({ p.1 with tapped_outside_numlock_bbox := true }, p.2)
      else (st, [])
    else ({ st with tapped_outside_numlock_bbox := true }, [])
  else (st, [])

/-- Embedding of the block after the match in `Numpad::process`: when
numlock is on and the finger state is Touching, `cur_key` is assigned the
layout lookup result, and on a hit the state moves to Tapping and a
key-down is emitted. -/
def postProcess (L : NumpadLayout) (st : TouchpadState) : TouchpadState × List Cmd :=
  if st.numlock = true ∧ st.finger_state = FingerState.Touching then
    match L.get_key st.posx st.posy with
    | some key =>
        ({ st with cur_key := some key, finger_state := FingerState.Tapping },
         [keyDownCmd L key])
    | none => ({ st with cur_key := none }, [])
  else (st, [])

/-- Run the post-match block after a handler's result. -/
def withPost (L : NumpadLayout) (p : TouchpadState × List Cmd) : TouchpadState × List Cmd :=
  ((postProcess L p.1).1, p.2 ++ (postProcess L p.1).2)

/-- One iteration of the `Numpad::process` loop on one event.  The
position arms end in `continue` in the source, so they skip the
post-match block; all other arms fall through to it. -/
def processEvent (L : NumpadLayout) (st : TouchpadState) : Event → TouchpadState × List Cmd
  | Event.posX v _ => ({ st with posx := v }, [])
  | Event.posY v _ => ({ st with posy := v }, [])
  | Event.finger v t => withPost L (handleFinger L st v t)
  | Event.tick t => withPost L (handleTick L st t)
  | Event.other => withPost L (st, [])

/-- Process a list of events in order, accumulating emitted commands. -/
def processTrace (L : NumpadLayout) (st : TouchpadState) : List Event → TouchpadState × List Cmd
  | [] => (st, [])
  | e :: es =>
    let p := processEvent L st e
    let q := processTrace L p.1 es
    (q.1, p.2 ++ q.2)

/-- States reachable from the default state by processing events. -/
inductive Reachable (L : NumpadLayout) : TouchpadState → Prop
  | init : Reachable L TouchpadState.default
  | step {st : TouchpadState} (ev : Event) :
      Reachable L st → Reachable L (processEvent L st ev).1

/-- The matching key-down command for a key-up command. -/
def downOf : Cmd → Option Cmd
  | Cmd.keyup k => some (Cmd.keydown k)
  | Cmd.multi_keyup ks => some (Cmd.multi_keydown ks)
  | _ => none

/-- Number of occurrences of a command in an emission list. -/
def countCmd (c : Cmd) (l : List Cmd) : Nat := l.countP (fun x => decide (x = c))

/-- The pending key-up obligation carried by the state: 1 for the up
command of the currently active key, else 0. -/
def keyContrib (L : NumpadLayout) (st : TouchpadState) (u : Cmd) : Nat :=
  match st.cur_key with
  | some k => if keyUpCmd L k = u then 1 else 0
  | none => 0

/-- A concrete test layout: one key (code 7) at x = 50, the numlock
toggle box at x ≥ 100, no composite keys. -/
def CL : NumpadLayout :=
  { get_key := fun x _ => if x = 50 then some 7 else none,
    in_numpad_bbox := fun x _ => decide (100 ≤ x),
    needs_multikey := fun _ => false,
    multikeys := fun _ => [] }

/-- A concrete test layout whose single key (code 5, everywhere) overlaps
the toggle bounding box (everywhere). -/
def CL2 : NumpadLayout :=
  { get_key := fun _ _ => some 5,
    in_numpad_bbox := fun _ _ => true,
    needs_multikey := fun _ => false,
    multikeys := fun _ => [] }

/-- A trace over `CL` that enables numlock by a long press in the toggle
box, lifts, and then touches down outside the box over no key and slides
onto the key at x = 50. -/
def cexTrace : List Event :=
  [Event.posX 150 ⟨0, 0⟩, Event.finger 1 ⟨0, 0⟩, Event.tick ⟨1, 0⟩,
   Event.finger 0 ⟨1, 1⟩, Event.posX 10 ⟨1, 2⟩, Event.finger 1 ⟨2, 0⟩,
   Event.posX 50 ⟨2, 1⟩]

/-- A trace over `CL` that enables numlock and then begins a second touch
inside the toggle box, leaving the machine Tapping with numlock on and
the suppression flag clear. -/
def c1Trace : List Event :=
  [Event.posX 150 ⟨0, 0⟩, Event.finger 1 ⟨0, 0⟩, Event.tick ⟨1, 0⟩,
   Event.finger 0 ⟨1, 1⟩, Event.finger 1 ⟨2, 0⟩]

/-- A trace over `CL2` that enables numlock by a long press and lifts. -/
def c4PreTrace : List Event :=
  [Event.finger 1 ⟨0, 0⟩, Event.tick ⟨1, 0⟩, Event.finger 0 ⟨1, 1⟩]

/-- A trace over `CL` that enables numlock and then rests the finger on
the key at x = 50, so that the final state has an active key. -/
def c8WitTrace : List Event :=
  [Event.posX 150 ⟨0, 0⟩, Event.finger 1 ⟨0, 0⟩, Event.tick ⟨1, 0⟩,
   Event.finger 0 ⟨1, 1⟩, Event.posX 50 ⟨1, 2⟩, Event.finger 1 ⟨2, 0⟩]

/-- A trace over `CL` that begins a touch outside the toggle box and then
moves the coordinate inside it while the finger stays down. -/
def c7WitTrace : List Event := [Event.finger 1 ⟨0, 0⟩, Event.posX 150 ⟨0, 1⟩]

/-- Keypad mode on, finger over the key at x = 50, finger lifted. -/
def c4WitState : TouchpadState := { TouchpadState.default with numlock := true, posx := 50 }

/-- Pointing mode, coordinate inside the toggle box, finger lifted. -/
def c5WitState : TouchpadState := { TouchpadState.default with posx := 150 }

/-- Keypad mode on, coordinate inside the toggle box, finger lifted. -/
def c10WitState : TouchpadState := { TouchpadState.default with numlock := true, posx := 150 }

/-- Every event handler leaves the brightness field unchanged (the source
has no write to it outside initialization). -/
lemma processEvent_brightness (L : NumpadLayout) (st : TouchpadState) (ev : Event) :
    (processEvent L st ev).1.brightness = st.brightness := by
  cases ev <;>
    simp only [processEvent, withPost, handleFinger, handleTick, postProcess,
      toggle_numlock] <;>
    (repeat' split) <;> simp_all

/-- In every reachable state the configured brightness is the default
`Half` level. -/
lemma reach_brightness {L : NumpadLayout} {st : TouchpadState} (h : Reachable L st) :
    st.brightness = Brightness.Half := by
  induction h with
  | init => rfl
  | step ev _ ih => rw [processEvent_brightness]; exact ih

/-- One step preserves the invariant that an active key forces the
Tapping finger state. -/
lemma curkey_inv_step (L : NumpadLayout) (st : TouchpadState) (ev : Event)
    (hinv : st.cur_key.isSome → st.finger_state = FingerState.Tapping) :
    (processEvent L st ev).1.cur_key.isSome →
      (processEvent L st ev).1.finger_state = FingerState.Tapping := by
  cases ev <;>
    simp only [processEvent, withPost, handleFinger, handleTick, postProcess,
      toggle_numlock] <;>
    (repeat' split) <;> simp_all

/-- In every reachable state, an active key forces the Tapping finger
state. -/
lemma reach_curkey {L : NumpadLayout} {st : TouchpadState} (h : Reachable L st) :
    st.cur_key.isSome → st.finger_state = FingerState.Tapping := by
  induction h with
  | init => intro h2; simp [TouchpadState.default] at h2
  | step ev hr ih => exact curkey_inv_step _ _ _ ih

/-- If a step clears the active key, the event was a contact-end and the
step emitted exactly the matching key-up. -/
lemma clear_char (L : NumpadLayout) (st : TouchpadState) (ev : Event) (k : Key)
    (hinv : st.cur_key.isSome → st.finger_state = FingerState.Tapping)
    (hk : st.cur_key = some k)
    (hcl : (processEvent L st ev).1.cur_key = none) :
    (∃ t, ev = Event.finger 0 t) ∧ (processEvent L st ev).2 = [keyUpCmd L k] := by
  have htap : st.finger_state = FingerState.Tapping := hinv (by simp [hk])
  revert hcl
  cases ev <;>
    simp only [processEvent, withPost, handleFinger, handleTick, postProcess,
      toggle_numlock] <;>
    (repeat' split) <;> intro hcl <;> simp_all

/-- If a step sets the active key, the key came from a successful layout
lookup at the resulting coordinate and the step emitted exactly the
matching key-down. -/
lemma set_char (L : NumpadLayout) (st : TouchpadState) (ev : Event) (k : Key)
    (hn : st.cur_key = none)
    (hset : (processEvent L st ev).1.cur_key = some k) :
    L.get_key (processEvent L st ev).1.posx (processEvent L st ev).1.posy = some k ∧
      (processEvent L st ev).2 = [keyDownCmd L k] := by
  revert hset
  cases ev <;>
    simp only [processEvent, withPost, handleFinger, handleTick, postProcess,
      toggle_numlock] <;>
    (repeat' split) <;> intro hset <;> simp_all

/-- A command with a matching key-down is a key-up of one of the two
emission shapes. -/
lemma downOf_shape (u d : Cmd) (hud : downOf u = some d) :
    (∃ k, u = Cmd.keyup k ∧ d = Cmd.keydown k) ∨
      (∃ ks, u = Cmd.multi_keyup ks ∧ d = Cmd.multi_keydown ks) := by
  cases u <;> simp_all [downOf]

set_option maxHeartbeats 2000000 in
/-- Each step keeps key-down and key-up counts balanced against the
pending obligation of the active key. -/
lemma count_step (L : NumpadLayout) (st : TouchpadState) (ev : Event)
    (hinv : st.cur_key.isSome → st.finger_state = FingerState.Tapping)
    (u d : Cmd) (hud : downOf u = some d) :
    countCmd d (processEvent L st ev).2 + keyContrib L st u
      = countCmd u (processEvent L st ev).2 + keyContrib L (processEvent L st ev).1 u := by
  rcases downOf_shape u d hud with ⟨k0, rfl, rfl⟩ | ⟨ks0, rfl, rfl⟩ <;>
    cases ev <;>
    simp only [processEvent, withPost, handleFinger, handleTick, postProcess,
      toggle_numlock, keyDownCmd, keyUpCmd, countCmd, keyContrib] <;>
    (repeat' split) <;>
    simp_all [List.countP_cons, List.countP_nil]

lemma countCmd_append (c : Cmd) (l1 l2 : List Cmd) :
    countCmd c (l1 ++ l2) = countCmd c l1 + countCmd c l2 := by
  simp [countCmd, List.countP_append]

/-- Over a whole trace, key-down and key-up counts stay balanced against
the pending obligation of the active key. -/
lemma count_trace (L : NumpadLayout) (evs : List Event) (st : TouchpadState)
    (hinv : st.cur_key.isSome → st.finger_state = FingerState.Tapping)
    (u d : Cmd) (hud : downOf u = some d) :
    countCmd d (processTrace L st evs).2 + keyContrib L st u
      = countCmd u (processTrace L st evs).2 + keyContrib L (processTrace L st evs).1 u := by
  induction evs generalizing st with
  | nil => simp [processTrace, countCmd]
  | cons e es ih =>
    have h1 := count_step L st e hinv u d hud
    have h2 := ih (processEvent L st e).1 (curkey_inv_step L st e hinv)
    simp only [processTrace, countCmd_append]
    omega

/-- Position samples that repeat the current coordinate leave the state
untouched and emit nothing. -/
lemma mids_noop (L : NumpadLayout) (x y : Int) (mids : List Event)
    (hm : ∀ e ∈ mids, (∃ t, e = Event.posX x t) ∨ (∃ t, e = Event.posY y t)) :
    ∀ st : TouchpadState, st.posx = x → st.posy = y → processTrace L st mids = (st, []) := by
  induction mids with
  | nil => intro st _ _; rfl
  | cons e es ih =>
    intro st hx hy
    have hst : processEvent L st e = (st, []) := by
      rcases hm e (by simp) with ⟨t, rfl⟩ | ⟨t, rfl⟩ <;>
        simp only [processEvent] <;>
        subst hx hy <;>
        cases st <;> simp
    have hrest := ih (fun e he => hm e (by simp [he])) st hx hy
    simp [processTrace, hst, hrest]

/-- After the post-match block, a Touching state with numlock on can only
survive when the layout lookup at the current coordinate found no key. -/
lemma postProcess_touch (L : NumpadLayout) (st : TouchpadState)
    (h1 : (postProcess L st).1.numlock = true)
    (h2 : (postProcess L st).1.finger_state = FingerState.Touching) :
    L.get_key (postProcess L st).1.posx (postProcess L st).1.posy = none := by
  revert h1 h2
  simp only [postProcess]
  (repeat' split) <;> simp_all

lemma processTrace_append (L : NumpadLayout) (st : TouchpadState) (l1 l2 : List Event) :
    processTrace L st (l1 ++ l2)
      = ((processTrace L (processTrace L st l1).1 l2).1,
         (processTrace L st l1).2 ++ (processTrace L (processTrace L st l1).1 l2).2) := by
  induction l1 generalizing st with
  | nil => simp [processTrace]
  | cons e es ih => simp [processTrace, ih]

/-- The state after any trace processed from the default state is
reachable. -/
lemma reach_trace (L : NumpadLayout) (evs : List Event) :
    Reachable L (processTrace L TouchpadState.default evs).1 := by
  suffices h : ∀ st, Reachable L st → Reachable L (processTrace L st evs).1 by
    exact h _ Reachable.init
  induction evs with
  | nil => intro st h; exact h
  | cons e es ih => intro st h; exact ih _ (Reachable.step e h)

/-- Claim C1, counterexample.  The claim asserts that with keypad mode on
a tick never invokes the toggle.  But `c1Trace` reaches a state with
numlock on, FingerState = Tapping, and the suppression flag clear, and a
subsequent tick flips numlock off, emitting the zero-brightness and
ungrab commands of a toggle: the tick guard in the source has no
keypad-mode condition. -/
theorem C1_counterexample :
    (processTrace CL TouchpadState.default c1Trace).1.numlock = true ∧
    (processEvent CL (processTrace CL TouchpadState.default c1Trace).1
        (Event.tick ⟨3, 0⟩)).1.numlock = false ∧
    (processEvent CL (processTrace CL TouchpadState.default c1Trace).1
        (Event.tick ⟨3, 0⟩)).2 = [Cmd.setBrightness Brightness.Zero, Cmd.ungrab] := by
  decide

/-- Claim C1, amended.  The tick sample's toggle logic runs exactly when
FingerState = Tapping and the suppression flag is clear, with no
keypad-mode condition: a tick outside those conditions leaves the tick
arm a no-op, and under them (coordinate in the toggle box, elapsed time
at least the hold duration) the tick invokes the toggle whatever the
current numlock value — in particular with keypad mode on it turns it
off. -/
theorem C1_amended_tick_guard (L : NumpadLayout) (st : TouchpadState) (t : TimeVal) :
    (st.finger_state ≠ FingerState.Tapping ∨ st.tapped_outside_numlock_bbox = true →
      handleTick L st t = (st, []))
    ∧ (st.finger_state = FingerState.Tapping → st.tapped_outside_numlock_bbox = false →
        L.in_numpad_bbox st.posx st.posy = true →
        TimeVal.tvGe (TimeVal.elapsed_since t st.tap_started_at) HOLD_DURATION = true →
        processEvent L st (Event.tick t)
          = ({ st with numlock := !st.numlock, tapped_outside_numlock_bbox := true },
             if st.numlock then [Cmd.setBrightness Brightness.Zero, Cmd.ungrab]
             else [Cmd.setBrightness st.brightness, Cmd.grab])) := by
  constructor
  · intro h
    rcases h with h | h <;> simp [handleTick, h]
  · intro hfs hsup hbb hel
    obtain ⟨px, py, fs, nl, ck, ts, so, br⟩ := st
    simp only at hfs hsup hbb hel
    subst hfs hsup
    cases nl <;>
      simp [processEvent, withPost, handleTick, postProcess, toggle_numlock, hbb, hel]

/-- Witness for the amended C1 at the reachable state built by `c1Trace`:
with keypad mode on, the tick toggles it off. -/
theorem C1_witness :
    processEvent CL (processTrace CL TouchpadState.default c1Trace).1 (Event.tick ⟨3, 0⟩)
      = ({ (processTrace CL TouchpadState.default c1Trace).1 with
           numlock := !(processTrace CL TouchpadState.default c1Trace).1.numlock,
           tapped_outside_numlock_bbox := true },
         if (processTrace CL TouchpadState.default c1Trace).1.numlock then
           [Cmd.setBrightness Brightness.Zero, Cmd.ungrab]
         else [Cmd.setBrightness (processTrace CL TouchpadState.default c1Trace).1.brightness,
               Cmd.grab]) :=
  (C1_amended_tick_guard CL (processTrace CL TouchpadState.default c1Trace).1 ⟨3, 0⟩).2
    (by decide) (by decide) (by decide) (by decide)

/-- Claim C2, counterexample.  The claim asserts the post-processing step
runs after every processed event, including position samples.  But after
`cexTrace` (whose last event is a position-X sample moving the coordinate
onto the key at x = 50) the machine is in keypad mode with FingerState =
Touching and a resolvable key at the current coordinate, and no key-down
was emitted: the position arms `continue` past the post-processing
block. -/
theorem C2_counterexample :
    (processTrace CL TouchpadState.default cexTrace).1.numlock = true ∧
    (processTrace CL TouchpadState.default cexTrace).1.finger_state = FingerState.Touching ∧
    CL.get_key (processTrace CL TouchpadState.default cexTrace).1.posx
      (processTrace CL TouchpadState.default cexTrace).1.posy = some 7 ∧
    (processTrace CL TouchpadState.default cexTrace).2 =
      [Cmd.setBrightness Brightness.Half, Cmd.grab] := by
  decide

/-- Claim C2, amended.  The post-processing step runs after contact, tick
and unrecognized events but not after position samples: a position sample
only updates the coordinate and emits nothing; after any non-position
event a surviving Touching state with keypad mode on implies the lookup
found no key; and a tick received in keypad mode while Touching over a
resolvable key resolves it — Tapping, active key set, exactly one
key-down. -/
theorem C2_amended_post_step (L : NumpadLayout) (st : TouchpadState) :
    (∀ v t, processEvent L st (Event.posX v t) = ({ st with posx := v }, []))
    ∧ (∀ v t, processEvent L st (Event.posY v t) = ({ st with posy := v }, []))
    ∧ (∀ ev, (∀ v t, ev ≠ Event.posX v t) → (∀ v t, ev ≠ Event.posY v t) →
        (processEvent L st ev).1.numlock = true →
        (processEvent L st ev).1.finger_state = FingerState.Touching →
        L.get_key (processEvent L st ev).1.posx (processEvent L st ev).1.posy = none)
    ∧ (∀ t k, st.numlock = true → st.finger_state = FingerState.Touching →
        L.get_key st.posx st.posy = some k →
        processEvent L st (Event.tick t)
          = ({ st with cur_key := some k, finger_state := FingerState.Tapping },
             [keyDownCmd L k])) := by
  refine ⟨fun v t => rfl, fun v t => rfl, ?_, ?_⟩
  · intro ev hx hy h3 h4
    cases ev with
    | posX v t => exact absurd rfl (hx v t)
    | posY v t => exact absurd rfl (hy v t)
    | finger v t =>
      simp only [processEvent, withPost] at h3 h4 ⊢
      exact postProcess_touch L _ h3 h4
    | tick t =>
      simp only [processEvent, withPost] at h3 h4 ⊢
      exact postProcess_touch L _ h3 h4
    | other =>
      simp only [processEvent, withPost] at h3 h4 ⊢
      exact postProcess_touch L _ h3 h4
  · intro t k h1 h2 hkey
    simp [processEvent, withPost, handleTick, postProcess, h1, h2, hkey]

/-- Witness for the amended C2 at the state built by `cexTrace`: a tick
in keypad mode while Touching over the key at x = 50 resolves it and
emits its key-down. -/
theorem C2_witness :
    processEvent CL (processTrace CL TouchpadState.default cexTrace).1 (Event.tick ⟨9, 9⟩)
      = ({ (processTrace CL TouchpadState.default cexTrace).1 with
           cur_key := some 7, finger_state := FingerState.Tapping },
         [keyDownCmd CL 7]) :=
  (C2_amended_post_step CL (processTrace CL TouchpadState.default cexTrace).1).2.2.2 ⟨9, 9⟩ 7
    (by decide) (by decide) (by decide)

/-- Claim C3: for valid timestamps with `later ≥ earlier` (lexicographic),
`elapsed_since` is the exact difference: its total microsecond value is
the difference of the inputs' totals, the sub-second component stays in
[0, 1000000), the whole-second component is non-negative, equal inputs
give (0s, 0µs), and the result is the component-wise difference with a
one-second borrow exactly when the later sub-second component is
smaller. -/
theorem C3_elapsed_exact (a b : TimeVal)
    (ha0 : 0 ≤ a.tv_usec) (ha1 : a.tv_usec < USEC_PER_SEC)
    (hb0 : 0 ≤ b.tv_usec) (hb1 : b.tv_usec < USEC_PER_SEC)
    (hge : b.tv_sec < a.tv_sec ∨ (b.tv_sec = a.tv_sec ∧ b.tv_usec ≤ a.tv_usec)) :
    (a.elapsed_since b).tv_sec * USEC_PER_SEC + (a.elapsed_since b).tv_usec
        = (a.tv_sec * USEC_PER_SEC + a.tv_usec) - (b.tv_sec * USEC_PER_SEC + b.tv_usec)
    ∧ 0 ≤ (a.elapsed_since b).tv_usec
    ∧ (a.elapsed_since b).tv_usec < USEC_PER_SEC
    ∧ 0 ≤ (a.elapsed_since b).tv_sec
    ∧ (a = b → a.elapsed_since b = ⟨0, 0⟩)
    ∧ a.elapsed_since b =
        (if b.tv_usec ≤ a.tv_usec then
          ⟨a.tv_sec - b.tv_sec, a.tv_usec - b.tv_usec⟩
        else ⟨a.tv_sec - b.tv_sec - 1, a.tv_usec + USEC_PER_SEC - b.tv_usec⟩) := by
  unfold USEC_PER_SEC at *
  by_cases h : b.tv_usec ≤ a.tv_usec
  · have hmod : u32cast (a.tv_usec - b.tv_usec) = a.tv_usec - b.tv_usec := by
      unfold u32cast
      exact Int.emod_eq_of_lt (by omega) (by omega)
    simp only [TimeVal.elapsed_since, if_pos h, hmod]
    refine ⟨by ring, by omega, by omega, by omega, ?_, by simp⟩
    intro hab
    subst hab
    simp
  · have hma : u32cast a.tv_usec = a.tv_usec := by
      unfold u32cast
      exact Int.emod_eq_of_lt (by omega) (by omega)
    have hmb : u32cast b.tv_usec = b.tv_usec := by
      unfold u32cast
      exact Int.emod_eq_of_lt (by omega) (by omega)
    have hmod : u32cast (a.tv_usec + 1000000 - b.tv_usec)
        = a.tv_usec + 1000000 - b.tv_usec := by
      unfold u32cast
      exact Int.emod_eq_of_lt (by omega) (by omega)
    simp only [TimeVal.elapsed_since, if_neg h, hma, hmb, USEC_PER_SEC, hmod]
    refine ⟨by ring, by omega, by omega, by omega, ?_, by simp [h]⟩
    intro hab
    subst hab
    omega

/-- Witness for C3 at the spec's concrete borrow example:
elapsed((11s, 100000µs), (10s, 900000µs)) = (0s, 200000µs). -/
theorem C3_witness :
    TimeVal.elapsed_since ⟨11, 100000⟩ ⟨10, 900000⟩ = ⟨0, 200000⟩ := by
  have h := C3_elapsed_exact ⟨11, 100000⟩ ⟨10, 900000⟩ (by decide) (by decide)
    (by decide) (by decide) (by decide)
  exact h.2.2.2.2.2.trans (by decide)

/-- Claim C4, counterexample.  Over the layout `CL2`, whose mapped key
region lies inside the toggle bounding box, `c4PreTrace` leaves keypad
mode on with the finger lifted over a mapped key (lookup yields key 5);
yet appending a contact-begin and a contact-end emits no key events at
all — the whole trace emits only the earlier toggle's two commands, not
the key-down/key-up pair the claim requires for N = 0. -/
theorem C4_counterexample :
    ((processTrace CL2 TouchpadState.default c4PreTrace).1.numlock = true ∧
     (processTrace CL2 TouchpadState.default c4PreTrace).1.finger_state = FingerState.Lifted ∧
     CL2.get_key (processTrace CL2 TouchpadState.default c4PreTrace).1.posx
       (processTrace CL2 TouchpadState.default c4PreTrace).1.posy = some 5) ∧
    (processTrace CL2 TouchpadState.default
        (c4PreTrace ++ [Event.finger 1 ⟨2, 0⟩, Event.finger 0 ⟨2, 1⟩])).2 =
      [Cmd.setBrightness Brightness.Half, Cmd.grab] := by
  decide

/-- Claim C4, amended.  With keypad mode on and the touch point over a
mapped key whose coordinate lies outside the toggle bounding box, a
contact-begin, N same-coordinate position samples, and a contact-end
emit exactly one key-down followed by the one matching key-up; and over
every event sequence from the initial state, each key-up command occurs
no more often than its matching key-down command, so a key-up is never
emitted without a prior matching key-down. -/
theorem C4_amended_tap_pair (L : NumpadLayout) (st : TouchpadState) (k : Key)
    (t0 t1 : TimeVal) (mids : List Event)
    (hnum : st.numlock = true) (hfs : st.finger_state = FingerState.Lifted)
    (hck : st.cur_key = none)
    (hkey : L.get_key st.posx st.posy = some k)
    (hbb : L.in_numpad_bbox st.posx st.posy = false)
    (hm : ∀ e ∈ mids, (∃ t, e = Event.posX st.posx t) ∨ (∃ t, e = Event.posY st.posy t)) :
    (processTrace L st (Event.finger 1 t0 :: (mids ++ [Event.finger 0 t1]))).2
      = [keyDownCmd L k, keyUpCmd L k]
    ∧ ∀ (evs : List Event) (u d : Cmd), downOf u = some d →
        countCmd u (processTrace L TouchpadState.default evs).2
          ≤ countCmd d (processTrace L TouchpadState.default evs).2 := by
  constructor
  · obtain ⟨px, py, fs, nl, ck, ts, so, br⟩ := st
    simp only at hnum hfs hck hkey hbb hm
    subst hnum hfs hck
    have hstep1 : processEvent L ⟨px, py, FingerState.Lifted, true, none, ts, so, br⟩
        (Event.finger 1 t0)
        = (⟨px, py, FingerState.Tapping, true, some k, t0, true, br⟩, [keyDownCmd L k]) := by
      simp [processEvent, withPost, handleFinger, postProcess, hbb, hkey]
    have hmids := mids_noop L px py mids hm
        ⟨px, py, FingerState.Tapping, true, some k, t0, true, br⟩ rfl rfl
    have hstep3 : processEvent L ⟨px, py, FingerState.Tapping, true, some k, t0, true, br⟩
        (Event.finger 0 t1)
        = (⟨px, py, FingerState.Lifted, true, none, t0, true, br⟩, [keyUpCmd L k]) := by
      simp [processEvent, withPost, handleFinger, postProcess]
    simp [processTrace, hstep1, processTrace_append, hmids, hstep3]
  · intro evs u d hud
    have h := count_trace L evs TouchpadState.default
      (by intro h2; simp [TouchpadState.default] at h2) u d hud
    have h0 : keyContrib L TouchpadState.default u = 0 := rfl
    omega

/-- Witness for the amended C4 over `CL` with one interleaved position
sample (N = 1): the trace emits exactly the down/up pair of key 7. -/
theorem C4_witness :
    (processTrace CL c4WitState
        (Event.finger 1 ⟨0, 0⟩ :: ([Event.posX 50 ⟨0, 1⟩] ++ [Event.finger 0 ⟨1, 0⟩]))).2
      = [keyDownCmd CL 7, keyUpCmd CL 7] :=
  (C4_amended_tap_pair CL c4WitState 7 ⟨0, 0⟩ ⟨1, 0⟩ [Event.posX 50 ⟨0, 1⟩]
    (by decide) (by decide) (by decide) (by decide) (by decide)
    (fun e he => by
      simp only [List.mem_singleton] at he
      subst he
      exact Or.inl ⟨⟨0, 1⟩, by decide⟩)).1

/-- Claim C5: from a lifted state with the coordinate inside the toggle
box, a contact-begin at t0, a tick whose elapsed time is below the hold
duration (no toggle, no commands), and a tick whose elapsed time reaches
it produce exactly one toggle — one mode flip with its brightness and
grab commands and nothing else, so no key-down precedes the flip — and
set the suppression flag, after which any further tick of the same touch
is a complete no-op. -/
theorem C5_hold_to_toggle (L : NumpadLayout) (st : TouchpadState) (t0 t1 t2 : TimeVal)
    (hfs : st.finger_state = FingerState.Lifted)
    (hbb : L.in_numpad_bbox st.posx st.posy = true)
    (h1 : TimeVal.tvGe (TimeVal.elapsed_since t1 t0) HOLD_DURATION = false)
    (h2 : TimeVal.tvGe (TimeVal.elapsed_since t2 t0) HOLD_DURATION = true) :
    processTrace L st [Event.finger 1 t0, Event.tick t1, Event.tick t2]
      = ({ st with
           finger_state := FingerState.Tapping, tap_started_at := t0,
           tapped_outside_numlock_bbox := true, numlock := !st.numlock },
         if st.numlock then [Cmd.setBrightness Brightness.Zero, Cmd.ungrab]
         else [Cmd.setBrightness st.brightness, Cmd.grab])
    ∧ (∀ t3, processEvent L
        { st with
          finger_state := FingerState.Tapping, tap_started_at := t0,
          tapped_outside_numlock_bbox := true, numlock := !st.numlock } (Event.tick t3)
        = ({ st with
             finger_state := FingerState.Tapping, tap_started_at := t0,
             tapped_outside_numlock_bbox := true, numlock := !st.numlock }, [])) := by
  obtain ⟨px, py, fs, nl, ck, ts, so, br⟩ := st
  simp only at hfs hbb
  subst hfs
  constructor
  · cases nl <;>
      simp [processTrace, processEvent, withPost, handleFinger, handleTick, postProcess,
        toggle_numlock, hbb, h1, h2]
  · intro t3
    cases nl <;>
      simp [processEvent, withPost, handleTick, postProcess]

/-- Witness for C5 at the spec's concrete timings: contact-begin at
(10s, 0µs), ticks at +500ms (below the 750ms hold) and +760ms. -/
theorem C5_witness :
    processTrace CL c5WitState
        [Event.finger 1 ⟨10, 0⟩, Event.tick ⟨10, 500000⟩, Event.tick ⟨10, 760000⟩]
      = ({ c5WitState with
           finger_state := FingerState.Tapping, tap_started_at := ⟨10, 0⟩,
           tapped_outside_numlock_bbox := true, numlock := !c5WitState.numlock },
         if c5WitState.numlock then [Cmd.setBrightness Brightness.Zero, Cmd.ungrab]
         else [Cmd.setBrightness c5WitState.brightness, Cmd.grab]) :=
  (C5_hold_to_toggle CL c5WitState ⟨10, 0⟩ ⟨10, 500000⟩ ⟨10, 760000⟩
    (by decide) (by decide) (by decide) (by decide)).1

/-- Claim C6: the toggle operation always flips the keypad-mode flag; a
flip to on emits the configured brightness (in every reachable state the
default Half level, whose value 24 is non-zero) and the grab request; a
flip to off emits the zero brightness level and the ungrab request. -/
theorem C6_toggle_numlock_effects (L : NumpadLayout) (st : TouchpadState)
    (h : Reachable L st) :
    (toggle_numlock st).1 = { st with numlock := !st.numlock }
    ∧ (st.numlock = false →
        toggle_numlock st
          = ({ st with numlock := true }, [Cmd.setBrightness st.brightness, Cmd.grab])
        ∧ st.brightness.val ≠ 0)
    ∧ (st.numlock = true →
        toggle_numlock st
          = ({ st with numlock := false },
             [Cmd.setBrightness Brightness.Zero, Cmd.ungrab])) := by
  have hbr : st.brightness = Brightness.Half := reach_brightness h
  refine ⟨?_, ?_, ?_⟩
  · rcases hn : st.numlock <;> simp [toggle_numlock, hn]
  · intro hn
    constructor
    · simp [toggle_numlock, hn]
    · simp [hbr, Brightness.val]
  · intro hn
    simp [toggle_numlock, hn]

/-- Witness for C6 at the (reachable) default state: enabling emits the
configured non-zero brightness and the grab. -/
theorem C6_witness :
    toggle_numlock TouchpadState.default
        = ({ TouchpadState.default with numlock := true },
           [Cmd.setBrightness TouchpadState.default.brightness, Cmd.grab])
      ∧ TouchpadState.default.brightness.val ≠ 0 :=
  (C6_toggle_numlock_effects CL TouchpadState.default Reachable.init).2.1 rfl

/-- Claim C7, counterexample.  The claim asserts a contact-begin changes
nothing when FingerState ≠ Lifted.  But after `c7WitTrace` the machine is
Touching with the coordinate inside the toggle box, and a further
contact-begin moves FingerState to Tapping: the bounding-box check sits
outside the Lifted-only block in the source. -/
theorem C7_counterexample :
    (processTrace CL TouchpadState.default c7WitTrace).1.finger_state
        = FingerState.Touching ∧
    (processEvent CL (processTrace CL TouchpadState.default c7WitTrace).1
        (Event.finger 1 ⟨1, 0⟩)).1.finger_state = FingerState.Tapping := by
  decide

/-- Claim C7, amended.  A contact-begin from Lifted sets Touching,
records tap-start and clears suppression, then runs the bounding-box
check: inside the box it moves to Tapping; outside it sets suppression
and, when keypad mode is on, the post-processing step may immediately
resolve a key (Tapping plus key-down).  When FingerState is not Lifted
the tap-start step is skipped but the bounding-box check still runs:
inside the box FingerState becomes Tapping; outside the suppression flag
is set, again with possible post-processing resolution from Touching. -/
theorem C7_amended_contact_begin (L : NumpadLayout) (st : TouchpadState) (t : TimeVal) :
    (st.finger_state = FingerState.Lifted → L.in_numpad_bbox st.posx st.posy = true →
      processEvent L st (Event.finger 1 t)
        = ({ st with
             finger_state := FingerState.Tapping, tap_started_at := t,
             tapped_outside_numlock_bbox := false }, []))
    ∧ (st.finger_state = FingerState.Lifted → L.in_numpad_bbox st.posx st.posy = false →
        st.numlock = false →
        processEvent L st (Event.finger 1 t)
          = ({ st with
               finger_state := FingerState.Touching, tap_started_at := t,
               tapped_outside_numlock_bbox := true }, []))
    ∧ (st.finger_state = FingerState.Lifted → L.in_numpad_bbox st.posx st.posy = false →
        st.numlock = true →
        processEvent L st (Event.finger 1 t)
          = (match L.get_key st.posx st.posy with
             | some k =>
                ({ st with
                   finger_state := FingerState.Tapping, tap_started_at := t,
                   tapped_outside_numlock_bbox := true, cur_key := some k },
                 [keyDownCmd L k])
             | none =>
                ({ st with
                   finger_state := FingerState.Touching, tap_started_at := t,
                   tapped_outside_numlock_bbox := true, cur_key := none }, [])))
    ∧ (st.finger_state ≠ FingerState.Lifted → L.in_numpad_bbox st.posx st.posy = true →
        processEvent L st (Event.finger 1 t)
          = ({ st with finger_state := FingerState.Tapping }, []))
    ∧ (st.finger_state = FingerState.Tapping → L.in_numpad_bbox st.posx st.posy = false →
        processEvent L st (Event.finger 1 t)
          = ({ st with tapped_outside_numlock_bbox := true }, []))
    ∧ (st.finger_state = FingerState.Touching → L.in_numpad_bbox st.posx st.posy = false →
        st.numlock = false →
        processEvent L st (Event.finger 1 t)
          = ({ st with tapped_outside_numlock_bbox := true }, []))
    ∧ (st.finger_state = FingerState.Touching → L.in_numpad_bbox st.posx st.posy = false →
        st.numlock = true →
        processEvent L st (Event.finger 1 t)
          = (match L.get_key st.posx st.posy with
             | some k =>
                ({ st with
                   tapped_outside_numlock_bbox := true, cur_key := some k,
                   finger_state := FingerState.Tapping },
                 [keyDownCmd L k])
             | none =>
                ({ st with tapped_outside_numlock_bbox := true, cur_key := none }, []))) := by
  obtain ⟨px, py, fs, nl, ck, ts, so, br⟩ := st
  refine ⟨?_, ?_, ?_, ?_, ?_, ?_, ?_⟩ <;> intro h1 h2 <;> simp only at h1 h2 <;>
    first
    | (intro h3
       simp only at h3
       subst h1 h3
       rcases hkey : L.get_key px py with _ | k <;>
         simp [processEvent, withPost, handleFinger, postProcess, h2, hkey])
    | (subst h1
       simp [processEvent, withPost, handleFinger, postProcess, h2])
    | (cases fs <;> simp_all [processEvent, withPost, handleFinger, postProcess])

/-- Witness for the amended C7 at the state built by `c7WitTrace`: a
second contact-begin while Touching inside the box moves to Tapping. -/
theorem C7_witness :
    processEvent CL (processTrace CL TouchpadState.default c7WitTrace).1
        (Event.finger 1 ⟨1, 0⟩)
      = ({ (processTrace CL TouchpadState.default c7WitTrace).1 with
           finger_state := FingerState.Tapping }, []) :=
  (C7_amended_contact_begin CL (processTrace CL TouchpadState.default c7WitTrace).1
    ⟨1, 0⟩).2.2.2.1 (by decide) (by decide)

/-- Claim C8: in every reachable state the active-key field is populated
only while FingerState = Tapping; a step that clears it is a contact-end
emitting exactly the one matching key-up (and a contact-end with an
active key does exactly that, clearing it once); and a step that sets it
resolves the key from a successful layout lookup at the current
coordinate, emitting exactly the one matching key-down. -/
theorem C8_active_key_invariant (L : NumpadLayout) (st : TouchpadState)
    (h : Reachable L st) :
    (st.cur_key.isSome → st.finger_state = FingerState.Tapping)
    ∧ (∀ ev k, st.cur_key = some k → (processEvent L st ev).1.cur_key = none →
        (∃ t, ev = Event.finger 0 t) ∧ (processEvent L st ev).2 = [keyUpCmd L k])
    ∧ (∀ t k, st.cur_key = some k →
        processEvent L st (Event.finger 0 t)
          = ({ st with finger_state := FingerState.Lifted, cur_key := none },
             [keyUpCmd L k]))
    ∧ (∀ ev k, st.cur_key = none → (processEvent L st ev).1.cur_key = some k →
        L.get_key (processEvent L st ev).1.posx (processEvent L st ev).1.posy = some k ∧
          (processEvent L st ev).2 = [keyDownCmd L k]) := by
  refine ⟨reach_curkey h, ?_, ?_, ?_⟩
  · intro ev k hk hcl
    exact clear_char L st ev k (reach_curkey h) hk hcl
  · intro t k hk
    simp [processEvent, withPost, handleFinger, hk, postProcess]
  · intro ev k hn hset
    exact set_char L st ev k hn hset

/-- Witness for C8 at the reachable state built by `c8WitTrace`, whose
active key is 7: the contact-end clears it and emits its key-up. -/
theorem C8_witness :
    processEvent CL (processTrace CL TouchpadState.default c8WitTrace).1
        (Event.finger 0 ⟨3, 0⟩)
      = ({ (processTrace CL TouchpadState.default c8WitTrace).1 with
            finger_state := FingerState.Lifted, cur_key := none },
         [keyUpCmd CL 7]) :=
  (C8_active_key_invariant CL (processTrace CL TouchpadState.default c8WitTrace).1
    (reach_trace CL c8WitTrace)).2.2.1 ⟨3, 0⟩ 7 (by decide)

/-- Claim C9, counterexample.  The claim asserts unrecognized events are
silent no-ops.  But in the reachable state built by `cexTrace` (keypad
mode on, Touching, coordinate over the key at x = 50) an unrecognized
event emits a key-down and moves FingerState to Tapping: the wildcard
match arm still falls through to the post-processing block. -/
theorem C9_counterexample :
    (processTrace CL TouchpadState.default cexTrace).1.finger_state
        = FingerState.Touching ∧
    (processEvent CL (processTrace CL TouchpadState.default cexTrace).1 Event.other).2
      = [Cmd.keydown 7] ∧
    (processEvent CL (processTrace CL TouchpadState.default cexTrace).1
        Event.other).1.finger_state = FingerState.Tapping := by
  decide

/-- Claim C9, amended.  An unrecognized event skips the match but still
runs the post-processing step: when keypad mode is off or FingerState is
not Touching it is a complete no-op (state unchanged, nothing emitted);
otherwise the active-key field receives the layout lookup result and, on
a hit, FingerState becomes Tapping and the key-down is emitted. -/
theorem C9_amended_other_event (L : NumpadLayout) (st : TouchpadState) :
    (st.numlock = false ∨ st.finger_state ≠ FingerState.Touching →
        processEvent L st Event.other = (st, []))
    ∧ (st.numlock = true → st.finger_state = FingerState.Touching →
        processEvent L st Event.other
          = (match L.get_key st.posx st.posy with
             | some k =>
                ({ st with cur_key := some k, finger_state := FingerState.Tapping },
                 [keyDownCmd L k])
             | none => ({ st with cur_key := none }, []))) := by
  constructor
  · intro h
    rcases h with h | h <;> simp [processEvent, withPost, postProcess, h]
  · intro h1 h2
    rcases hkey : L.get_key st.posx st.posy with _ | k <;>
      simp [processEvent, withPost, postProcess, h1, h2, hkey]

/-- Witness for the amended C9 at the default state (keypad mode off):
an unrecognized event is a complete no-op there. -/
theorem C9_witness :
    processEvent CL TouchpadState.default Event.other = (TouchpadState.default, []) :=
  (C9_amended_other_event CL TouchpadState.default).1 (Or.inl rfl)

/-- Claim C10: with keypad mode on and the lifted finger's coordinate
inside the toggle box, a contact-begin moves straight to Tapping (so the
key-resolution step, which needs Touching, never runs and no key-down is
emitted), and a tick whose elapsed time reaches the hold duration
toggles keypad mode back off, emitting exactly the zero-brightness and
ungrab commands. -/
theorem C10_keypad_on_long_press (L : NumpadLayout) (st : TouchpadState) (t0 t1 : TimeVal)
    (hfs : st.finger_state = FingerState.Lifted)
    (hnum : st.numlock = true)
    (hbb : L.in_numpad_bbox st.posx st.posy = true)
    (h2 : TimeVal.tvGe (TimeVal.elapsed_since t1 t0) HOLD_DURATION = true) :
    processTrace L st [Event.finger 1 t0, Event.tick t1]
      = ({ st with
           finger_state := FingerState.Tapping, tap_started_at := t0,
           tapped_outside_numlock_bbox := true, numlock := false },
         [Cmd.setBrightness Brightness.Zero, Cmd.ungrab]) := by
  obtain ⟨px, py, fs, nl, ck, ts, so, br⟩ := st
  simp only at hfs hnum hbb
  subst hfs hnum
  simp [processTrace, processEvent, withPost, handleFinger, handleTick, postProcess,
    toggle_numlock, hbb, h2]

/-- Witness for C10: from keypad mode on inside the box, begin at (0s)
and tick at (1s) toggle the mode off with no key events. -/
theorem C10_witness :
    processTrace CL c10WitState [Event.finger 1 ⟨0, 0⟩, Event.tick ⟨1, 0⟩]
      = ({ c10WitState with
           finger_state := FingerState.Tapping, tap_started_at := ⟨0, 0⟩,
           tapped_outside_numlock_bbox := true, numlock := false },
         [Cmd.setBrightness Brightness.Zero, Cmd.ungrab]) :=
  C10_keypad_on_long_press CL c10WitState ⟨0, 0⟩ ⟨1, 0⟩
    (by decide) (by decide) (by decide) (by decide)
